import Mathlib

/-
Verification of the febraban-code repository (src/febraban_code/febraban_code.py).

Digit strings are embedded as lists of natural numbers, one entry per digit
(the Python code manipulates strings of digit characters and converts
individual characters with int; the list-of-digits embedding makes that
conversion explicit at the boundary, see strToDigits and digitsToStr).
Every definition below mirrors the corresponding Python method; the helper
functions suffixed Loop mirror the Python for-loops with their accumulators.
-/

namespace Febraban

/-- Embedding of the dynamic typing of the single public constructor argument:
the Python code checks isinstance(code, str) and raises for every non-string
value, so a value is either a string or some non-string. -/
inductive PyValue where
  | str : String → PyValue
  | nonStr : PyValue

/-- Error taxonomy of construction: invalidInput embeds the AttributeError
raised for non-string input, invalidLength embeds the ValueError raised when
the cleaned digit count is neither 44 nor 47. -/
inductive FebrabanError where
  | invalidInput : FebrabanError
  | invalidLength : FebrabanError
deriving DecidableEq

/-- Classification of the cleaned digit string by length: 47 digits is a
line, 44 digits is a bar. -/
inductive CodeType where
  | line : CodeType
  | bar : CodeType
deriving DecidableEq

/-- Embedding of the digit-stripping comprehension in __code_match:
keep exactly the digit characters of the input. -/
def cleanDigits (code : String) : List Char :=
  code.toList.filter (fun c => c.isDigit)

/-- Embedding of __code_match: non-strings are rejected, otherwise the
non-digit characters are stripped and the result is classified by length
(47 is a line, 44 is a bar, anything else is an error). -/
def codeMatch : PyValue → Except FebrabanError (CodeType × String)
  | PyValue.nonStr => Except.error FebrabanError.invalidInput
  | PyValue.str code =>
    let cleaned := cleanDigits code
    if cleaned.length = 47 then Except.ok (CodeType.line, String.mk cleaned)
    else if cleaned.length = 44 then Except.ok (CodeType.bar, String.mk cleaned)
    else Except.error FebrabanError.invalidLength

/-- Conversion of a digit character to its numeric value, the int call of
the Python code. -/
def charToDigit (c : Char) : Nat := c.toNat - 48

/-- Conversion of a whole string to its digit values. -/
def strToDigits (s : String) : List Nat := s.toList.map charToDigit

/-- Conversion of a digit value back to its character. -/
def digitToChar (d : Nat) : Char := Char.ofNat (48 + d)

/-- Conversion of a list of digit values back to a string. -/
def digitsToStr (ds : List Nat) : String := String.mk (ds.map digitToChar)

/-- Contribution of one digit in __get_dv_module_10: the digit times its
multiplier, with products of at least 10 replaced by the sum of their two
decimal digits (product // 10 + product % 10 in the source). -/
def mod10Contribution (digit m : Nat) : Nat :=
  let product := digit * m
  if product < 10 then product else product / 10 + product % 10

/-- Embedding of the for-loop of __get_dv_module_10: it walks the reversed
digit list with a running index (the enumerate counter) and a running total,
looking the multiplier up in the precomputed multipliers list. -/
def dvModule10Loop (multipliers : List Nat) : List Nat → Nat → Nat → Nat
  | [], _, total => total
  | digit :: rest, count, total =>
    dvModule10Loop multipliers rest (count + 1)
      (total + mod10Contribution digit (multipliers.getD count 0))

/-- Embedding of __get_dv_module_10: multipliers = [2, 1] * ((len + 1) // 2),
the digits are processed right to left, and the check digit is
10 - remainder, or 0 when the remainder is 0. -/
def getDvModule10 (number : List Nat) : Nat :=
  let multipliers := (List.replicate ((number.length + 1) / 2) [2, 1]).flatten
  let total := dvModule10Loop multipliers number.reverse 0 0
  let remainder := total % 10
  if remainder ≠ 0 then 10 - remainder else 0

/-- Embedding of the for-loop of __get_dv_module_11: digits are processed
left to right; after each digit the multiplier is set to 10 if it currently
equals 2 and is then decremented. -/
def dvModule11Loop : List Nat → Nat → Nat → Nat
  | [], _, total => total
  | digit :: rest, multiplier, total =>
    dvModule11Loop rest ((if multiplier = 2 then 10 else multiplier) - 1)
      (total + digit * multiplier)

/-- Weighted total of __get_dv_module_11, starting with multiplier 4. -/
def dvModule11Total (number : List Nat) : Nat := dvModule11Loop number 4 0

/-- Embedding of __get_dv_module_11: check digit 11 - total % 11, with the
results 0, 10 and 11 all mapped to 1. -/
def getDvModule11 (number : List Nat) : Nat :=
  let dv := 11 - dvModule11Total number % 11
  if dv = 0 ∨ dv = 10 ∨ dv = 11 then 1 else dv

/-- One of the three free fields of a code: payload digits plus one check
digit, the inner info and dv dictionaries of the Python record. -/
structure FieldInfo where
  info : List Nat
  dv : Nat
deriving DecidableEq

/-- The structured record produced by extraction, mirroring the dictionary
built by __get_info_from_line and __get_info_from_bar.  The derived expiry
date and float value are pure functions of expiry_factor and value_factor
and are not needed by any claim, so only the raw factors are kept. -/
structure CodeInfo where
  type : CodeType
  bank : List Nat
  currency : List Nat
  dv : Nat
  expiry_factor : List Nat
  value_factor : List Nat
  field_1 : FieldInfo
  field_2 : FieldInfo
  field_3 : FieldInfo
deriving DecidableEq

/-- Embedding of __get_info_from_line.  The regex groups of widths
3, 1, 6, 11, 11, 1, 4, 10 become fixed slices; group k at offset o with
width w is (line.drop o).take w.  The info and dv parts of each field come
from group[:-1] and group[-1]. -/
def getInfoFromLine (line : List Nat) : CodeInfo :=
  { type := CodeType.line
    bank := line.take 3
    currency := (line.drop 3).take 1
    field_1 := { info := ((line.drop 4).take 6).dropLast
                 dv := ((line.drop 4).take 6).getLastD 0 }
    field_2 := { info := ((line.drop 10).take 11).dropLast
                 dv := ((line.drop 10).take 11).getLastD 0 }
    field_3 := { info := ((line.drop 21).take 11).dropLast
                 dv := ((line.drop 21).take 11).getLastD 0 }
    dv := ((line.drop 32).take 1).headD 0
    expiry_factor := (line.drop 33).take 4
    value_factor := (line.drop 37).take 10 }

/-- Embedding of __get_info_from_bar.  The regex groups of widths
3, 1, 1, 4, 10, 5, 10, 10 become fixed slices, and the three field check
digits are derived with the modulo-10 engine: field 1 over
bank ++ currency ++ payload, fields 2 and 3 over their payload alone. -/
def getInfoFromBar (bar : List Nat) : CodeInfo :=
  { type := CodeType.bar
    bank := bar.take 3
    currency := (bar.drop 3).take 1
    dv := ((bar.drop 4).take 1).headD 0
    expiry_factor := (bar.drop 5).take 4
    value_factor := (bar.drop 9).take 10
    field_1 := { info := (bar.drop 19).take 5
                 dv := getDvModule10 (bar.take 3 ++ (bar.drop 3).take 1 ++ (bar.drop 19).take 5) }
    field_2 := { info := (bar.drop 24).take 10
                 dv := getDvModule10 ((bar.drop 24).take 10) }
    field_3 := { info := (bar.drop 34).take 10
                 dv := getDvModule10 ((bar.drop 34).take 10) }}

/-- Embedding of get_bar at the digit level: bank, currency, overall check
digit, expiry factor, value factor and the three field payloads. -/
def get_bar (info : CodeInfo) : List Nat :=
  info.bank ++ info.currency ++ [info.dv] ++ info.expiry_factor ++ info.value_factor
    ++ info.field_1.info ++ info.field_2.info ++ info.field_3.info

/-- String form of get_bar, the value actually returned by the Python
method. -/
def getBarStr (info : CodeInfo) : String := digitsToStr (get_bar info)

/-- Embedding of the unformatted branch of get_line at the digit level. -/
def getLineDigits (info : CodeInfo) : List Nat :=
  info.bank ++ info.currency
    ++ info.field_1.info ++ [info.field_1.dv]
    ++ info.field_2.info ++ [info.field_2.dv]
    ++ info.field_3.info ++ [info.field_3.dv]
    ++ [info.dv] ++ info.expiry_factor ++ info.value_factor

/-- Embedding of get_line: the formatted branch inserts a dot inside each
payload and a space between the blocks, the unformatted branch is the plain
47-digit concatenation. -/
def get_line (info : CodeInfo) (formatted : Bool) : String :=
  if formatted then
    digitsToStr info.bank ++ digitsToStr info.currency
      ++ digitsToStr (info.field_1.info.take 1) ++ "." ++ digitsToStr (info.field_1.info.drop 1)
      ++ digitsToStr [info.field_1.dv] ++ " "
      ++ digitsToStr (info.field_2.info.take 5) ++ "." ++ digitsToStr (info.field_2.info.drop 5)
      ++ digitsToStr [info.field_2.dv] ++ " "
      ++ digitsToStr (info.field_3.info.take 5) ++ "." ++ digitsToStr (info.field_3.info.drop 5)
      ++ digitsToStr [info.field_3.dv] ++ " "
      ++ digitsToStr [info.dv] ++ " "
      ++ digitsToStr info.expiry_factor ++ digitsToStr info.value_factor
  else
    digitsToStr (getLineDigits info)

/-- Embedding of validate: the three modulo-10 comparisons and the
modulo-11 comparison over the bar representation with position 4 removed
(bar[:4] + bar[5:] in the source). -/
def validate (info : CodeInfo) : Bool :=
  let dv1_string := info.bank ++ info.currency ++ info.field_1.info
  let dv1_is_valid := getDvModule10 dv1_string == info.field_1.dv
  let dv2_is_valid := getDvModule10 info.field_2.info == info.field_2.dv
  let dv3_is_valid := getDvModule10 info.field_3.info == info.field_3.dv
  let bar := get_bar info
  let dv_line_is_valid := getDvModule11 (bar.take 4 ++ bar.drop 5) == info.dv
  dv1_is_valid && dv2_is_valid && dv3_is_valid && dv_line_is_valid

/-- Embedding of the constructor: __code_match followed by the dispatch of
__get_info_from_code to the matching extractor. -/
def construct (v : PyValue) : Except FebrabanError CodeInfo :=
  match codeMatch v with
  | Except.error e => Except.error e
  | Except.ok (CodeType.line, s) => Except.ok (getInfoFromLine (strToDigits s))
  | Except.ok (CodeType.bar, s) => Except.ok (getInfoFromBar (strToDigits s))

/-- Helper: the modulo-11 check digit is either the special-cased 1 or the
raw formula value, which then lies between 1 and 9. -/
theorem getDvModule11_cases (number : List Nat) :
    getDvModule11 number = 1 ∨
      (getDvModule11 number = 11 - dvModule11Total number % 11 ∧
        11 - dvModule11Total number % 11 ≤ 9 ∧ 1 ≤ 11 - dvModule11Total number % 11) := by
  have hlt : dvModule11Total number % 11 < 11 := Nat.mod_lt _ (by omega)
  rw [getDvModule11]
  split
  · exact Or.inl rfl
  · rename_i hnot
    right
    refine ⟨rfl, ?_, ?_⟩ <;> omega

/-- Claim C6: the modulo-11 check digit is always between 1 and 9, and
whenever the raw formula 11 - (total mod 11) yields 0, 10 or 11 the function
returns 1 instead. -/
theorem febraban_c6 (number : List Nat) :
    (1 ≤ getDvModule11 number ∧ getDvModule11 number ≤ 9) ∧
      (11 - dvModule11Total number % 11 = 0 ∨ 11 - dvModule11Total number % 11 = 10 ∨
          11 - dvModule11Total number % 11 = 11 →
        getDvModule11 number = 1) := by
  have hlt : dvModule11Total number % 11 < 11 := Nat.mod_lt _ (by omega)
  constructor
  · rcases getDvModule11_cases number with h | ⟨h, h9, h1⟩
    · omega
    · omega
  · intro hraw
    rw [getDvModule11]
    split
    · rfl
    · rename_i hnot
      exact absurd hraw hnot

/-- Witness for claim C6 at the concrete digit list [3], whose weighted
total is 12, so the raw formula yields 10 and the result is 1. -/
theorem febraban_c6_witness : getDvModule11 [3] = 1 :=
  (febraban_c6 [3]).2 (by decide)

/-- Claim C3: validate returns true exactly when all four checksum
comparisons hold; the fourth is the modulo-11 check digit of the bar
representation with the character at index 4 removed. -/
theorem febraban_c3 (info : CodeInfo) :
    validate info = true ↔
      (getDvModule10 (info.bank ++ info.currency ++ info.field_1.info) = info.field_1.dv ∧
        getDvModule10 info.field_2.info = info.field_2.dv ∧
        getDvModule10 info.field_3.info = info.field_3.dv ∧
        getDvModule11 ((get_bar info).eraseIdx 4) = info.dv) := by
  rw [List.eraseIdx_eq_take_drop_succ]
  simp only [validate, Bool.and_eq_true, beq_iff_eq]
  tauto

/-- Claim C9: for a record extracted from a bar string the three stored
field check digits are recomputed by validate from exactly the strings they
were derived from, so those comparisons always succeed and validity reduces
to the modulo-11 comparison alone. -/
theorem febraban_c9 (b : List Nat) :
    (getDvModule10
          ((getInfoFromBar b).bank ++ (getInfoFromBar b).currency ++
            (getInfoFromBar b).field_1.info) =
        (getInfoFromBar b).field_1.dv ∧
      getDvModule10 (getInfoFromBar b).field_2.info = (getInfoFromBar b).field_2.dv ∧
      getDvModule10 (getInfoFromBar b).field_3.info = (getInfoFromBar b).field_3.dv) ∧
    (validate (getInfoFromBar b) = true ↔
      getDvModule11 ((get_bar (getInfoFromBar b)).eraseIdx 4) = (getInfoFromBar b).dv) := by
  refine ⟨⟨rfl, rfl, rfl⟩, ?_⟩
  rw [List.eraseIdx_eq_take_drop_succ]
  simp only [validate, Bool.and_eq_true, beq_iff_eq]
  constructor
  · intro h
    exact h.2
  · intro h
    exact ⟨⟨⟨rfl, rfl⟩, rfl⟩, h⟩

/-- Multiplier sequence claimed by the spec for the modulo-11 algorithm,
modelled from the spec: start at 4, decrease by 1 each digit, wrap from 2
back to 10, giving the period-9 cycle 4, 3, 2, 10, 9, 8, 7, 6, 5. -/
def claimedMultiplier (i : Nat) : Nat := [4, 3, 2, 10, 9, 8, 7, 6, 5].getD (i % 9) 0

/-- Multiplier sequence the code actually applies: after the value 2 the
variable is set to 10 and immediately decremented, so the next multiplier
used is 9 and the cycle is 4, 3, 2, 9, 8, 7, 6, 5 with period 8. -/
def actualCycleMultiplier (i : Nat) : Nat := [4, 3, 2, 9, 8, 7, 6, 5].getD (i % 8) 0

/-- Weighted digit total for an arbitrary position-indexed multiplier
sequence, digits processed left to right. -/
def mod11WeightedTotal (f : Nat → Nat) : List Nat → Nat → Nat
  | [], _ => 0
  | digit :: rest, i => digit * f i + mod11WeightedTotal f rest (i + 1)

/-- Modulo-11 check digit computed with an arbitrary position-indexed
multiplier sequence, with the same 0, 10, 11 to 1 special case as the
code. -/
def mod11DvWith (f : Nat → Nat) (number : List Nat) : Nat :=
  let dv := 11 - mod11WeightedTotal f number 0 % 11
  if dv = 0 ∨ dv = 10 ∨ dv = 11 then 1 else dv

/-- Stepping the actual multiplier state of the code from position i to
position i + 1 follows the period-8 cycle. -/
theorem actualCycle_step (i : Nat) :
    (if actualCycleMultiplier i = 2 then 10 else actualCycleMultiplier i) - 1
      = actualCycleMultiplier (i + 1) := by
  have h : i % 8 = 0 ∨ i % 8 = 1 ∨ i % 8 = 2 ∨ i % 8 = 3 ∨ i % 8 = 4 ∨ i % 8 = 5 ∨
      i % 8 = 6 ∨ i % 8 = 7 := by omega
  rcases h with h | h | h | h | h | h | h | h <;>
    simp [actualCycleMultiplier, Nat.add_mod, h]

/-- The loop of __get_dv_module_11 started at the multiplier of position i
computes the weighted total with the period-8 cycle. -/
theorem dvModule11Loop_eq (l : List Nat) (i total : Nat) :
    dvModule11Loop l (actualCycleMultiplier i) total
      = total + mod11WeightedTotal actualCycleMultiplier l i := by
  induction l generalizing i total with
  | nil => simp [dvModule11Loop, mod11WeightedTotal]
  | cons d rest ih =>
    rw [dvModule11Loop, actualCycle_step, ih (i + 1), mod11WeightedTotal]
    omega

/-- Claim C1 counterexample: on the digit list [0, 0, 0, 1] the code uses
multiplier 9 on the fourth digit (check digit 2) while the claimed cycle
would use 10 (check digit 1). -/
theorem febraban_c1_counterexample :
    getDvModule11 [0, 0, 0, 1] ≠ mod11DvWith claimedMultiplier [0, 0, 0, 1] := by
  decide

/-- Claim C1 amended: the digits are processed left to right, but the
multiplier cycle is 4, 3, 2, 9, 8, 7, 6, 5 with period 8; the value 10 is
assigned after a 2 but immediately decremented, so 10 is never applied. -/
theorem febraban_c1_amended (number : List Nat) :
    getDvModule11 number = mod11DvWith actualCycleMultiplier number := by
  have h4 : actualCycleMultiplier 0 = 4 := rfl
  have key : dvModule11Total number = mod11WeightedTotal actualCycleMultiplier number 0 := by
    have := dvModule11Loop_eq number 0 0
    rw [h4] at this
    simpa [dvModule11Total] using this
  rw [getDvModule11, mod11DvWith, key]

/-- Contribution of one digit in the spec description of the modulo-10
algorithm, modelled from the spec: the product, or the sum of its two
decimal digits when it reaches 10. -/
def specContrib (digit m : Nat) : Nat :=
  if digit * m < 10 then digit * m else digit * m / 10 + digit * m % 10

/-- Total of the spec description of the modulo-10 algorithm, modelled from
the spec: right-to-left processing with multipliers alternating between 2
and 1 (the step 3 - m swaps them), the list argument being already
reversed. -/
def specTotalMod10 : List Nat → Nat → Nat
  | [], _ => 0
  | digit :: rest, m => specContrib digit m + specTotalMod10 rest (3 - m)

/-- Reference modulo-10 check digit, modelled from the spec: rightmost digit
times 2, alternating multipliers, digit-sum reduction of the products, and
check digit (10 - total mod 10) mod 10. -/
def checkDigitMod10Spec (number : List Nat) : Nat :=
  (10 - specTotalMod10 number.reverse 2 % 10) % 10

/-- Element i of the multipliers list [2, 1] * k is 2 at even positions and
1 at odd positions. -/
theorem flatten_replicate_getD (k i : Nat) (h : i < 2 * k) :
    ((List.replicate k [2, 1]).flatten).getD i 0 = if i % 2 = 0 then 2 else 1 := by
  induction k generalizing i with
  | zero => omega
  | succ k ih =>
    rw [List.replicate_succ, List.flatten_cons]
    match i with
    | 0 => rfl
    | 1 => rfl
    | i + 2 =>
      have h2 : i < 2 * k := by omega
      have hmod : (i + 2) % 2 = i % 2 := by omega
      show (2 :: 1 :: (List.replicate k [2, 1]).flatten).getD (i + 2) 0 = _
      rw [List.getD_cons_succ, List.getD_cons_succ, ih i h2, hmod]

/-- The loop of __get_dv_module_10 started at counter i computes the
alternating total of the spec description. -/
theorem dvModule10Loop_eq (k : Nat) (l : List Nat) (i total : Nat)
    (h : i + l.length ≤ 2 * k) :
    dvModule10Loop ((List.replicate k [2, 1]).flatten) l i total
      = total + specTotalMod10 l (if i % 2 = 0 then 2 else 1) := by
  induction l generalizing i total with
  | nil => simp [dvModule10Loop, specTotalMod10]
  | cons d rest ih =>
    rw [dvModule10Loop, ih (i + 1) _ (by simp only [List.length_cons] at h; omega)]
    rw [flatten_replicate_getD k i (by simp only [List.length_cons] at h; omega)]
    have hc : ∀ m : Nat, mod10Contribution d m = specContrib d m := fun m => rfl
    have hpar : i % 2 = 0 ∨ i % 2 = 1 := by omega
    rcases hpar with hp | hp
    · have hp1 : (i + 1) % 2 = 1 := by omega
      rw [hp1, hp, if_pos rfl, if_neg (by omega), specTotalMod10, hc,
        show (3 : Nat) - 2 = 1 from rfl]
      omega
    · have hp1 : (i + 1) % 2 = 0 := by omega
      rw [hp1, hp, if_neg (by omega), if_pos rfl, specTotalMod10, hc,
        show (3 : Nat) - 1 = 2 from rfl]
      omega

/-- The code total of __get_dv_module_10 equals the spec total over the
reversed digit list starting with multiplier 2. -/
theorem getDvModule10_total (number : List Nat) :
    dvModule10Loop ((List.replicate ((number.length + 1) / 2) [2, 1]).flatten)
        number.reverse 0 0
      = specTotalMod10 number.reverse 2 := by
  have h : 0 + number.reverse.length ≤ 2 * ((number.length + 1) / 2) := by
    rw [List.length_reverse]
    omega
  have := dvModule10Loop_eq ((number.length + 1) / 2) number.reverse 0 0 h
  simpa using this

/-- Claim C7: the modulo-10 check digit of the code coincides with the
reference definition of the spec on digit strings, and is always a single
digit between 0 and 9. -/
theorem febraban_c7 (number : List Nat) (_hdigits : ∀ d ∈ number, d < 10) :
    getDvModule10 number = checkDigitMod10Spec number ∧ getDvModule10 number ≤ 9 := by
  have key := getDvModule10_total number
  have hlt : specTotalMod10 number.reverse 2 % 10 < 10 := Nat.mod_lt _ (by omega)
  constructor
  · rw [getDvModule10, checkDigitMod10Spec, key]
    split <;> omega
  · rw [getDvModule10, key]
    split <;> omega

/-- Witness for claim C7 at the concrete digit list [1, 0, 3]. -/
theorem febraban_c7_witness :
    getDvModule10 [1, 0, 3] = checkDigitMod10Spec [1, 0, 3] ∧ getDvModule10 [1, 0, 3] ≤ 9 :=
  febraban_c7 [1, 0, 3] (by decide)

/-- Appending a zero digit at the far end of the reversed list does not
change the alternating total, whatever the current multiplier is. -/
theorem specTotalMod10_append_zero (l : List Nat) (m : Nat) :
    specTotalMod10 (l ++ [0]) m = specTotalMod10 l m := by
  induction l generalizing m with
  | nil => simp [specTotalMod10, specContrib]
  | cons d rest ih =>
    rw [List.cons_append, specTotalMod10, specTotalMod10, ih]

/-- Claim C10: the modulo-10 check digit is invariant under prepending a
leading zero, because positions are counted from the right and a zero digit
contributes nothing. -/
theorem febraban_c10 (s : List Nat) : getDvModule10 (0 :: s) = getDvModule10 s := by
  have k1 := getDvModule10_total (0 :: s)
  have k2 := getDvModule10_total s
  rw [getDvModule10, getDvModule10, k1, k2, List.reverse_cons, specTotalMod10_append_zero]

/-- Line layout asserted by the claim, modelled from the spec: bank(3),
currency(1), field 1 block of 7 digits (6 payload + 1 check), field 2 block
of 11 (10 + 1), field 3 block of 11 (10 + 1), overall check(1), expiry
factor(4), value factor(10), which places the blocks at offsets 4, 11, 22,
33, 34 and 38. -/
def lineLayoutClaimed (l : List Nat) : Prop :=
  (getInfoFromLine l).bank = l.take 3 ∧
  (getInfoFromLine l).currency = (l.drop 3).take 1 ∧
  (getInfoFromLine l).field_1.info = (l.drop 4).take 6 ∧
  (getInfoFromLine l).field_1.dv = l.getD 10 0 ∧
  (getInfoFromLine l).field_2.info = (l.drop 11).take 10 ∧
  (getInfoFromLine l).field_2.dv = l.getD 21 0 ∧
  (getInfoFromLine l).field_3.info = (l.drop 22).take 10 ∧
  (getInfoFromLine l).field_3.dv = l.getD 32 0 ∧
  (getInfoFromLine l).dv = l.getD 33 0 ∧
  (getInfoFromLine l).expiry_factor = (l.drop 34).take 4 ∧
  (getInfoFromLine l).value_factor = (l.drop 38).take 10

/-- Concrete 47-digit line used to refute the claimed layout. -/
def exLine47 : List Nat :=
  [0, 1, 2, 3, 4, 5, 6, 7, 8, 9,
   0, 1, 2, 3, 4, 5, 6, 7, 8, 9,
   0, 1, 2, 3, 4, 5, 6, 7, 8, 9,
   0, 1, 2, 3, 4, 5, 6, 7, 8, 9,
   0, 1, 2, 3, 4, 5, 6]

/-- Claim C2 counterexample: on a concrete 47-digit line the extractor does
not follow the claimed layout; its field 1 payload has 5 digits, not 6. -/
theorem febraban_c2_counterexample : ¬ lineLayoutClaimed exLine47 := by
  unfold lineLayoutClaimed
  decide

/-- Claim C2 amended: the 47-digit line decomposes as bank(3), currency(1),
field 1 block of 6 digits (5 payload + 1 check), field 2 block of 11
(10 + 1), field 3 block of 11 (10 + 1), overall check(1), expiry factor(4),
value factor(10). -/
theorem febraban_c2_amended
    (bank cur f1i f2i f3i expf valf : List Nat) (d1 d2 d3 d0 : Nat)
    (hbank : bank.length = 3) (hcur : cur.length = 1)
    (hf1 : f1i.length = 5) (hf2 : f2i.length = 10) (hf3 : f3i.length = 10)
    (hexp : expf.length = 4) (hval : valf.length = 10) :
    getInfoFromLine
        (bank ++ cur ++ f1i ++ [d1] ++ f2i ++ [d2] ++ f3i ++ [d3] ++ [d0] ++ expf ++ valf) =
      { type := CodeType.line
        bank := bank
        currency := cur
        field_1 := { info := f1i, dv := d1 }
        field_2 := { info := f2i, dv := d2 }
        field_3 := { info := f3i, dv := d3 }
        dv := d0
        expiry_factor := expf
        value_factor := valf } := by
  simp [getInfoFromLine, List.take_append_eq_append_take, List.drop_append_eq_append_drop,
    List.take_of_length_le, List.drop_eq_nil_of_le,
    hbank, hcur, hf1, hf2, hf3, hexp, hval,
    List.dropLast_concat, List.getLastD_concat]

/-- Witness for claim C2 at concrete blocks. -/
theorem febraban_c2_witness :
    getInfoFromLine
        ([0, 0, 1] ++ [9] ++ [1, 2, 3, 4, 5] ++ [6] ++ [0, 1, 2, 3, 4, 5, 6, 7, 8, 9] ++ [7]
          ++ [9, 8, 7, 6, 5, 4, 3, 2, 1, 0] ++ [8] ++ [3] ++ [1, 2, 3, 4]
          ++ [0, 0, 0, 0, 0, 0, 1, 0, 0, 0]) =
      { type := CodeType.line
        bank := [0, 0, 1]
        currency := [9]
        field_1 := { info := [1, 2, 3, 4, 5], dv := 6 }
        field_2 := { info := [0, 1, 2, 3, 4, 5, 6, 7, 8, 9], dv := 7 }
        field_3 := { info := [9, 8, 7, 6, 5, 4, 3, 2, 1, 0], dv := 8 }
        dv := 3
        expiry_factor := [1, 2, 3, 4]
        value_factor := [0, 0, 0, 0, 0, 0, 1, 0, 0, 0] } :=
  febraban_c2_amended [0, 0, 1] [9] [1, 2, 3, 4, 5] [0, 1, 2, 3, 4, 5, 6, 7, 8, 9]
    [9, 8, 7, 6, 5, 4, 3, 2, 1, 0] [1, 2, 3, 4] [0, 0, 0, 0, 0, 0, 1, 0, 0, 0]
    6 7 8 3 rfl rfl rfl rfl rfl rfl rfl

/-- Claim C4: for a 44-digit bar the three field check digits are derived by
the modulo-10 engine (field 1 over bank ++ currency ++ payload, fields 2 and
3 over their payload alone), not read from the input string. -/
theorem febraban_c4
    (bank cur expf valf f1i f2i f3i : List Nat) (d0 : Nat)
    (hbank : bank.length = 3) (hcur : cur.length = 1)
    (hexp : expf.length = 4) (hval : valf.length = 10)
    (hf1 : f1i.length = 5) (hf2 : f2i.length = 10) (hf3 : f3i.length = 10) :
    getInfoFromBar (bank ++ cur ++ [d0] ++ expf ++ valf ++ f1i ++ f2i ++ f3i) =
      { type := CodeType.bar
        bank := bank
        currency := cur
        dv := d0
        expiry_factor := expf
        value_factor := valf
        field_1 := { info := f1i, dv := getDvModule10 (bank ++ cur ++ f1i) }
        field_2 := { info := f2i, dv := getDvModule10 f2i }
        field_3 := { info := f3i, dv := getDvModule10 f3i }} := by
  simp [getInfoFromBar, List.take_append_eq_append_take, List.drop_append_eq_append_drop,
    List.take_of_length_le, List.drop_eq_nil_of_le,
    hbank, hcur, hexp, hval, hf1, hf2, hf3]

/-- Witness for claim C4 at concrete blocks. -/
theorem febraban_c4_witness :
    getInfoFromBar
        ([0, 0, 1] ++ [9] ++ [3] ++ [1, 2, 3, 4] ++ [0, 0, 0, 0, 0, 0, 1, 0, 0, 0]
          ++ [1, 2, 3, 4, 5] ++ [0, 1, 2, 3, 4, 5, 6, 7, 8, 9] ++ [9, 8, 7, 6, 5, 4, 3, 2, 1, 0]) =
      { type := CodeType.bar
        bank := [0, 0, 1]
        currency := [9]
        dv := 3
        expiry_factor := [1, 2, 3, 4]
        value_factor := [0, 0, 0, 0, 0, 0, 1, 0, 0, 0]
        field_1 := { info := [1, 2, 3, 4, 5]
                     dv := getDvModule10 ([0, 0, 1] ++ [9] ++ [1, 2, 3, 4, 5]) }
        field_2 := { info := [0, 1, 2, 3, 4, 5, 6, 7, 8, 9]
                     dv := getDvModule10 [0, 1, 2, 3, 4, 5, 6, 7, 8, 9] }
        field_3 := { info := [9, 8, 7, 6, 5, 4, 3, 2, 1, 0]
                     dv := getDvModule10 [9, 8, 7, 6, 5, 4, 3, 2, 1, 0] }} :=
  febraban_c4 [0, 0, 1] [9] [1, 2, 3, 4] [0, 0, 0, 0, 0, 0, 1, 0, 0, 0]
    [1, 2, 3, 4, 5] [0, 1, 2, 3, 4, 5, 6, 7, 8, 9] [9, 8, 7, 6, 5, 4, 3, 2, 1, 0]
    3 rfl rfl rfl rfl rfl rfl rfl

/-- A list whose length is a nonzero number is not empty. -/
theorem ne_nil_of_length_eq (l : List Nat) (n : Nat) (hn : l.length = n) (h0 : n ≠ 0) :
    l ≠ [] := by
  intro hnil
  rw [hnil] at hn
  simp only [List.length_nil] at hn
  omega

/-- Taking one element of a nonempty list is the singleton of its default
head, written through the take so the extractor shape matches. -/
theorem take_one_eq_headD_self (l : List Nat) (h : l ≠ []) :
    l.take 1 = [(l.take 1).headD 0] := by
  cases l with
  | nil => exact absurd rfl h
  | cons a t => rfl

/-- Reattaching the default last element after dropLast rebuilds a nonempty
list. -/
theorem dropLast_append_getLastD (l : List Nat) (d : Nat) (h : l ≠ []) :
    l.dropLast ++ [l.getLastD d] = l := by
  induction l generalizing d with
  | nil => exact absurd rfl h
  | cons a t ih =>
    cases t with
    | nil => rfl
    | cons b t2 =>
      rw [List.dropLast_cons₂, List.getLastD_cons, List.cons_append, ih a (by simp)]

/-- Reencoding a 44-digit bar after extraction is the identity at the digit
level. -/
theorem bar_roundtrip (b : List Nat) (h : b.length = 44) :
    get_bar (getInfoFromBar b) = b := by
  have h44 : b.drop 44 = [] := List.drop_eq_nil_of_le (by omega)
  have hb3 : b = b.take 3 ++ b.drop 3 := (List.take_append_drop 3 b).symm
  have s3 : b.drop 3 = (b.drop 3).take 1 ++ b.drop 4 := (List.drop_take_append_drop b 3 1).symm
  have s4 : b.drop 4 = (b.drop 4).take 1 ++ b.drop 5 := (List.drop_take_append_drop b 4 1).symm
  have s5 : b.drop 5 = (b.drop 5).take 4 ++ b.drop 9 := (List.drop_take_append_drop b 5 4).symm
  have s9 : b.drop 9 = (b.drop 9).take 10 ++ b.drop 19 :=
    (List.drop_take_append_drop b 9 10).symm
  have s19 : b.drop 19 = (b.drop 19).take 5 ++ b.drop 24 :=
    (List.drop_take_append_drop b 19 5).symm
  have s24 : b.drop 24 = (b.drop 24).take 10 ++ b.drop 34 :=
    (List.drop_take_append_drop b 24 10).symm
  have s34 : b.drop 34 = (b.drop 34).take 10 ++ b.drop 44 :=
    (List.drop_take_append_drop b 34 10).symm
  have hdvcell : (b.drop 4).take 1 = [((b.drop 4).take 1).headD 0] :=
    take_one_eq_headD_self (b.drop 4)
      (ne_nil_of_length_eq (b.drop 4) 40 (by simp [List.length_drop, h]) (by omega))
  simp only [get_bar, getInfoFromBar]
  conv_rhs => rw [hb3, s3, s4, s5, s9, s19, s24, s34, h44, List.append_nil, hdvcell]
  simp [List.append_assoc]

/-- Reencoding a 47-digit line after extraction is the identity at the digit
level. -/
theorem line_roundtrip (l : List Nat) (h : l.length = 47) :
    getLineDigits (getInfoFromLine l) = l := by
  have h47 : l.drop 47 = [] := List.drop_eq_nil_of_le (by omega)
  have hb3 : l = l.take 3 ++ l.drop 3 := (List.take_append_drop 3 l).symm
  have s3 : l.drop 3 = (l.drop 3).take 1 ++ l.drop 4 := (List.drop_take_append_drop l 3 1).symm
  have s4 : l.drop 4 = (l.drop 4).take 6 ++ l.drop 10 := (List.drop_take_append_drop l 4 6).symm
  have s10 : l.drop 10 = (l.drop 10).take 11 ++ l.drop 21 :=
    (List.drop_take_append_drop l 10 11).symm
  have s21 : l.drop 21 = (l.drop 21).take 11 ++ l.drop 32 :=
    (List.drop_take_append_drop l 21 11).symm
  have s32 : l.drop 32 = (l.drop 32).take 1 ++ l.drop 33 :=
    (List.drop_take_append_drop l 32 1).symm
  have s33 : l.drop 33 = (l.drop 33).take 4 ++ l.drop 37 :=
    (List.drop_take_append_drop l 33 4).symm
  have s37 : l.drop 37 = (l.drop 37).take 10 ++ l.drop 47 :=
    (List.drop_take_append_drop l 37 10).symm
  have f1 : ((l.drop 4).take 6).dropLast ++ [((l.drop 4).take 6).getLastD 0]
      = (l.drop 4).take 6 :=
    dropLast_append_getLastD _ 0
      (ne_nil_of_length_eq _ 6 (by simp [List.length_take, List.length_drop, h]) (by omega))
  have f2 : ((l.drop 10).take 11).dropLast ++ [((l.drop 10).take 11).getLastD 0]
      = (l.drop 10).take 11 :=
    dropLast_append_getLastD _ 0
      (ne_nil_of_length_eq _ 11 (by simp [List.length_take, List.length_drop, h]) (by omega))
  have f3 : ((l.drop 21).take 11).dropLast ++ [((l.drop 21).take 11).getLastD 0]
      = (l.drop 21).take 11 :=
    dropLast_append_getLastD _ 0
      (ne_nil_of_length_eq _ 11 (by simp [List.length_take, List.length_drop, h]) (by omega))
  have hdvcell : (l.drop 32).take 1 = [((l.drop 32).take 1).headD 0] :=
    take_one_eq_headD_self (l.drop 32)
      (ne_nil_of_length_eq (l.drop 32) 15 (by simp [List.length_drop, h]) (by omega))
  simp only [getLineDigits, getInfoFromLine]
  conv_rhs =>
    rw [hb3, s3, s4, s10, s21, s32, s33, s37, h47, List.append_nil, ← f1, ← f2, ← f3, hdvcell]
  simp [List.append_assoc]

/-- Converting a digit character to its value and back is the identity. -/
theorem digitToChar_charToDigit (c : Char) (h : c.isDigit = true) :
    digitToChar (charToDigit c) = c := by
  have h2 : 48 ≤ c.toNat ∧ c.toNat ≤ 57 := by
    simp [Char.isDigit, Char.le_def, decide_eq_true_eq] at h
    exact ⟨h.1, h.2⟩
  rw [digitToChar, charToDigit, show 48 + (c.toNat - 48) = c.toNat from by omega,
    Char.ofNat_toNat]

/-- Converting every character of an all-digit list to values and back is
the identity. -/
theorem map_digit_roundtrip (l : List Char) (h : ∀ c ∈ l, c.isDigit = true) :
    (l.map charToDigit).map digitToChar = l := by
  induction l with
  | nil => rfl
  | cons a t ih =>
    simp only [List.map_cons]
    rw [digitToChar_charToDigit a (h a (by simp)), ih (fun c hc => h c (by simp [hc]))]

/-- Matching an all-digit 44-character string classifies it as a bar and
keeps all its characters. -/
theorem codeMatch_bar (s : String) (hdig : ∀ c ∈ s.toList, c.isDigit = true)
    (hlen : s.toList.length = 44) :
    codeMatch (PyValue.str s) = Except.ok (CodeType.bar, String.mk s.toList) := by
  have hclean : cleanDigits s = s.toList :=
    List.filter_eq_self.mpr (fun a ha => hdig a ha)
  simp only [codeMatch, hclean, hlen]
  norm_num

/-- Matching an all-digit 47-character string classifies it as a line and
keeps all its characters. -/
theorem codeMatch_line (s : String) (hdig : ∀ c ∈ s.toList, c.isDigit = true)
    (hlen : s.toList.length = 47) :
    codeMatch (PyValue.str s) = Except.ok (CodeType.line, String.mk s.toList) := by
  have hclean : cleanDigits s = s.toList :=
    List.filter_eq_self.mpr (fun a ha => hdig a ha)
  simp only [codeMatch, hclean, hlen]
  norm_num

/-- Claim C5: construction followed by reencoding is the identity, for
44-digit bar strings through get_bar and for 47-digit line strings through
the unformatted get_line. -/
theorem febraban_c5 :
    (∀ s : String, (∀ c ∈ s.toList, c.isDigit = true) → s.toList.length = 44 →
        Except.map getBarStr (construct (PyValue.str s)) = Except.ok s) ∧
    (∀ s : String, (∀ c ∈ s.toList, c.isDigit = true) → s.toList.length = 47 →
        Except.map (fun info => get_line info false) (construct (PyValue.str s)) =
          Except.ok s) := by
  constructor
  · intro s hdig hlen
    rw [construct, codeMatch_bar s hdig hlen]
    have hds : strToDigits (String.mk s.toList) = s.toList.map charToDigit := rfl
    have hlen2 : (s.toList.map charToDigit).length = 44 := by
      rw [List.length_map]
      exact hlen
    show Except.ok (getBarStr (getInfoFromBar (strToDigits (String.mk s.toList))))
        = Except.ok s
    rw [hds, getBarStr, bar_roundtrip _ hlen2, digitsToStr,
      map_digit_roundtrip s.toList hdig]
    rfl
  · intro s hdig hlen
    rw [construct, codeMatch_line s hdig hlen]
    have hds : strToDigits (String.mk s.toList) = s.toList.map charToDigit := rfl
    have hlen2 : (s.toList.map charToDigit).length = 47 := by
      rw [List.length_map]
      exact hlen
    show Except.ok (get_line (getInfoFromLine (strToDigits (String.mk s.toList))) false)
        = Except.ok s
    rw [hds, get_line, if_neg (by simp), line_roundtrip _ hlen2, digitsToStr,
      map_digit_roundtrip s.toList hdig]
    rfl

/-- Concrete all-digit strings for the witnesses: a 44-digit bar and a
47-digit line. -/
def exBar44Str : String := "01234567890123456789012345678901234567890123"

/-- Concrete 47-digit line string for the witnesses. -/
def exLine47Str : String := "01234567890123456789012345678901234567890123456"

/-- Witness for claim C5 at the two concrete strings. -/
theorem febraban_c5_witness :
    Except.map getBarStr (construct (PyValue.str exBar44Str)) = Except.ok exBar44Str ∧
    Except.map (fun info => get_line info false) (construct (PyValue.str exLine47Str)) =
      Except.ok exLine47Str :=
  ⟨febraban_c5.1 exBar44Str (by decide) (by decide),
    febraban_c5.2 exLine47Str (by decide) (by decide)⟩

/-- Claim C8: non-strings fail with the invalid-input error; for strings
every non-digit character is stripped and the cleaned length classifies the
input, 44 as bar, 47 as line, anything else as the invalid-length error. -/
theorem febraban_c8 :
    codeMatch PyValue.nonStr = Except.error FebrabanError.invalidInput ∧
    ∀ s : String,
      ((cleanDigits s).length ≠ 44 → (cleanDigits s).length ≠ 47 →
        codeMatch (PyValue.str s) = Except.error FebrabanError.invalidLength) ∧
      ((cleanDigits s).length = 44 →
        codeMatch (PyValue.str s) = Except.ok (CodeType.bar, String.mk (cleanDigits s))) ∧
      ((cleanDigits s).length = 47 →
        codeMatch (PyValue.str s) = Except.ok (CodeType.line, String.mk (cleanDigits s))) := by
  refine ⟨rfl, fun s => ⟨?_, ?_, ?_⟩⟩
  · intro h44 h47
    simp only [codeMatch]
    rw [if_neg h47, if_neg h44]
  · intro h44
    simp only [codeMatch]
    rw [if_neg (by omega), if_pos h44]
  · intro h47
    simp only [codeMatch]
    rw [if_pos h47]

/-- Concrete 43-digit string for the boundary witness. -/
def exStr43 : String := "0123456789012345678901234567890123456789012"

/-- Concrete 48-digit string for the boundary witness. -/
def exStr48 : String := "012345678901234567890123456789012345678901234567"

/-- Concrete punctuated string whose digit count is 44, exercising the
non-digit stripping. -/
def exStrPunct44 : String := "0123456789.0123456789 0123456789-0123456789 0123"

/-- Witness for claim C8: lengths 43 and 48 are rejected, a punctuated
string with 44 digits is a bar, and a 47-digit string is a line. -/
theorem febraban_c8_witness :
    codeMatch (PyValue.str exStr43) = Except.error FebrabanError.invalidLength ∧
    codeMatch (PyValue.str exStr48) = Except.error FebrabanError.invalidLength ∧
    codeMatch (PyValue.str exStrPunct44) =
      Except.ok (CodeType.bar, String.mk (cleanDigits exStrPunct44)) ∧
    codeMatch (PyValue.str exLine47Str) =
      Except.ok (CodeType.line, String.mk (cleanDigits exLine47Str)) :=
  ⟨(febraban_c8.2 exStr43).1 (by decide) (by decide),
    (febraban_c8.2 exStr48).1 (by decide) (by decide),
    (febraban_c8.2 exStrPunct44).2.1 (by decide),
    (febraban_c8.2 exLine47Str).2.2 (by decide)⟩

end Febraban
